import Mathlib

set_option linter.unusedVariables false

/-!
Verification development for the text-chunking benchmark notebook.

The notebook defines two enumerations (ChunkingMethod, VectorDB), six
service stubs (chunk_text, save_chunks_to_vector_db, generate_questions,
retrieve_relevant_chunks, generate_answer, evaluate_answer) and an
orchestrator run_benchmark that
  1. for each method: chunks the text and saves the chunks to the vector db,
  2. generates the questions once,
  3. for each method: retrieves, answers and scores every question, and
     stores sum(method_scores) / len(method_scores) under method.value.

The embedding below keeps the source names.  Scores (Python floats) are
modelled as rationals.  Because the service calls are awaited coroutines
that may raise, the orchestrator is embedded parametrically over a
Services record whose fields return Except ErrKind; the concrete notebook
stubs (which never raise) are the stub_services instance.  A second view,
run_benchmark_events, records the sequence of service calls the
orchestrator performs, mirroring the same control flow.
-/

inductive ChunkingMethod
  | UNSTRUCTURED
  | AI21
  | CUSTOM
deriving DecidableEq

def ChunkingMethod.value : ChunkingMethod → String
  | .UNSTRUCTURED => "unstructured"
  | .AI21 => "ai21"
  | .CUSTOM => "custom"

inductive VectorDB
  | PINECONE
  | ASTRA
deriving DecidableEq

def VectorDB.value : VectorDB → String
  | .PINECONE => "pinecone"
  | .ASTRA => "astra"

/-- Source stub: chunk the text based on some method; returns a fixed list. -/
def chunk_text (text : String) (method : ChunkingMethod) : List String :=
  ["chunk1", "chunk2", "chunk3"]

/-- Source stub: saving to the vector db only prints; no value is produced. -/
def save_chunks_to_vector_db (chunks : List String) (db : VectorDB) : Unit :=
  ()

/-- Source stub: returns a fixed list of three questions, ignoring both arguments. -/
def generate_questions (text : String) (num_questions : Nat) : List String :=
  ["Question 1?", "Question 2?", "Question 3?"]

/-- Source stub: top-k search; returns a fixed list, ignoring all arguments
(the call sites use the default top_k = 3). -/
def retrieve_relevant_chunks (question : String) (db : VectorDB) (top_k : Nat) : List String :=
  ["relevant chunk 1", "relevant chunk 2"]

/-- Source stub: generate an answer from the question and context chunks. -/
def generate_answer (question : String) (context : List String) : String :=
  "Generated answer based on context"

/-- Source stub: evaluate the generated answer; always 0.85. -/
def evaluate_answer (generated_answer : String) (correct_answer : String) : ℚ :=
  17 / 20

/-- Error kinds a run can surface (Python exceptions raised by the awaited
service calls, plus ZeroDivisionError from the aggregation itself). -/
instance {ε α : Type} [DecidableEq ε] [DecidableEq α] : DecidableEq (Except ε α) := fun a b =>
  match a, b with
  | .ok x, .ok y =>
    if h : x = y then .isTrue (by rw [h]) else .isFalse (by intro hh; cases hh; exact h rfl)
  | .error x, .error y =>
    if h : x = y then .isTrue (by rw [h]) else .isFalse (by intro hh; cases hh; exact h rfl)
  | .ok _, .error _ => .isFalse (by intro hh; cases hh)
  | .error _, .ok _ => .isFalse (by intro hh; cases hh)

inductive ErrKind
  | RetrievalError
  | GenerationError
  | GradingError
  | ZeroDivisionError
  | InsufficientQuestions
deriving DecidableEq

/-- The six awaited services of the notebook, as fallible functions: each
field has the signature of the corresponding source stub, returning
Except to model a raised exception.  The orchestrator is embedded over
this record; stub_services instantiates it with the notebook's stubs. -/
structure Services where
  chunkText : String → ChunkingMethod → Except ErrKind (List String)
  saveChunks : List String → VectorDB → Except ErrKind Unit
  generateQuestions : String → Nat → Except ErrKind (List String)
  retrieve : String → VectorDB → Nat → Except ErrKind (List String)
  genAnswer : String → List String → Except ErrKind String
  evalAnswer : String → String → Except ErrKind ℚ

/-- The notebook's stubs never raise. -/
def stub_services : Services where
  chunkText := fun text method => .ok (chunk_text text method)
  saveChunks := fun chunks db => .ok (save_chunks_to_vector_db chunks db)
  generateQuestions := fun text n => .ok (generate_questions text n)
  retrieve := fun question db k => .ok (retrieve_relevant_chunks question db k)
  genAnswer := fun question context => .ok (generate_answer question context)
  evalAnswer := fun a c => .ok (evaluate_answer a c)

/-- Body of run_benchmark's inner loop: retrieve, answer, score one
question.  An exception at any step propagates (no try/except in the
source). -/
def eval_question (S : Services) (vector_db : VectorDB) (question : String) : Except ErrKind ℚ :=
  match S.retrieve question vector_db 3 with
  | .error e => .error e
  | .ok relevant_chunks =>
    match S.genAnswer question relevant_chunks with
    | .error e => .error e
    | .ok answer => S.evalAnswer answer "correct_answer"

/-- The inner for-loop over questions, accumulating method_scores in order. -/
def eval_questions (S : Services) (vector_db : VectorDB) : List String → Except ErrKind (List ℚ)
  | [] => .ok []
  | question :: rest =>
    match eval_question S vector_db question with
    | .error e => .error e
    | .ok score =>
      match eval_questions S vector_db rest with
      | .error e => .error e
      | .ok scores => .ok (score :: scores)

/-- The source's aggregation, sum(method_scores) / len(method_scores):
Python raises ZeroDivisionError when the list is empty. -/
def aggregate (method_scores : List ℚ) : Except ErrKind ℚ :=
  if method_scores.length = 0 then .error .ZeroDivisionError
  else .ok (method_scores.sum / (method_scores.length : ℚ))

/-- The second for-loop over chunking methods: evaluate every question and
store the aggregated value under method.value (the results dict, as an
association list in insertion order). -/
def run_methods (S : Services) (vector_db : VectorDB) (questions : List String) :
    List ChunkingMethod → Except ErrKind (List (String × ℚ))
  | [] => .ok []
  | method :: rest =>
    match eval_questions S vector_db questions with
    | .error e => .error e
    | .ok method_scores =>
      match aggregate method_scores with
      | .error e => .error e
      | .ok v =>
        match run_methods S vector_db questions rest with
        | .error e => .error e
        | .ok results => .ok ((method.value, v) :: results)

/-- The first for-loop: chunk the text with each method and save the chunks
to the (single) vector db. -/
def chunk_all (S : Services) (text : String) (vector_db : VectorDB) :
    List ChunkingMethod → Except ErrKind Unit
  | [] => .ok ()
  | method :: rest =>
    match S.chunkText text method with
    | .error e => .error e
    | .ok chunks =>
      match S.saveChunks chunks vector_db with
      | .error e => .error e
      | .ok _ => chunk_all S text vector_db rest

/-- run_benchmark from the source: chunk-and-save each method, generate the
questions once (num_questions = 10), then evaluate each method against
that single question list. -/
def run_benchmark (S : Services) (text : String) (chunking_methods : List ChunkingMethod)
    (vector_db : VectorDB) : Except ErrKind (List (String × ℚ)) :=
  match chunk_all S text vector_db chunking_methods with
  | .error e => .error e
  | .ok _ =>
    match S.generateQuestions text 10 with
    | .error e => .error e
    | .ok questions => run_methods S vector_db questions chunking_methods

/-! Helper lemmas about the orchestrator. -/

theorem chunk_all_ok (S : Services) (text : String) (db : VectorDB)
    (h1 : ∀ m, ∃ cs, S.chunkText text m = .ok cs)
    (h2 : ∀ cs, S.saveChunks cs db = .ok ()) :
    ∀ ms, chunk_all S text db ms = .ok () := by
  intro ms
  induction ms with
  | nil => rfl
  | cons m rest ih =>
    obtain ⟨cs, hcs⟩ := h1 m
    simp [chunk_all, hcs, h2 cs, ih]

theorem eval_questions_pointwise (S : Services) (db : VectorDB) (f : String → ℚ)
    (h : ∀ q, eval_question S db q = .ok (f q)) :
    ∀ qs, eval_questions S db qs = .ok (qs.map f) := by
  intro qs
  induction qs with
  | nil => rfl
  | cons q rest ih => simp [eval_questions, h q, ih]

theorem run_methods_const (S : Services) (db : VectorDB) (questions : List String)
    (scores : List ℚ) (v : ℚ)
    (hscores : eval_questions S db questions = .ok scores)
    (hagg : aggregate scores = .ok v) :
    ∀ ms, run_methods S db questions ms = .ok (ms.map fun m => (m.value, v)) := by
  intro ms
  induction ms with
  | nil => rfl
  | cons m rest ih => simp [run_methods, hscores, hagg, ih]

theorem eval_question_stub (db : VectorDB) (q : String) :
    eval_question stub_services db q = .ok (17/20) := rfl

theorem run_benchmark_stub (text : String) (ms : List ChunkingMethod) (db : VectorDB) :
    run_benchmark stub_services text ms db = .ok (ms.map fun m => (m.value, 17/20)) := by
  have hchunk : chunk_all stub_services text db ms = .ok () :=
    chunk_all_ok stub_services text db (fun m => ⟨chunk_text text m, rfl⟩) (fun cs => rfl) ms
  have hq : eval_questions stub_services db (generate_questions text 10)
      = .ok ((generate_questions text 10).map fun _ => (17/20 : ℚ)) :=
    eval_questions_pointwise stub_services db _ (eval_question_stub db) _
  have hagg : aggregate ((generate_questions text 10).map fun _ => (17/20 : ℚ)) = .ok (17/20) := by
    simp [generate_questions, aggregate]
    norm_num
  have hgen : stub_services.generateQuestions text 10 = .ok (generate_questions text 10) := rfl
  simp only [run_benchmark, hchunk, hgen]
  exact run_methods_const stub_services db (generate_questions text 10) _ _ hq hagg ms

/-- Modelled from the spec (for comparison with the code's aggregation):
per-strategy accuracy is count(score at or above threshold) divided by the
count of attempted questions, undefined when nothing was attempted. -/
def spec_accuracy (scores : List ℚ) (threshold : ℚ) : Option ℚ :=
  if scores.length = 0 then none
  else some ((scores.countP (fun s => threshold ≤ s) : ℚ) / (scores.length : ℚ))

/-! A second view of the same orchestrator: the sequence of service calls
run_benchmark performs, one event per awaited call, with the arguments
the source passes.  The three event builders mirror the three loops. -/

inductive Event
  | chunkCall (text : String) (method : ChunkingMethod)
  | saveCall (chunks : List String) (db : VectorDB)
  | genQuestionsCall (text : String) (num : Nat)
  | retrieveCall (question : String) (db : VectorDB) (topK : Nat)
  | genAnswerCall (question : String) (context : List String)
  | evalAnswerCall (answer : String) (correct : String)
deriving DecidableEq

def Event.isGenQuestionsCall : Event → Bool
  | .genQuestionsCall _ _ => true
  | _ => false

def Event.isEvaluationCall : Event → Bool
  | .retrieveCall _ _ _ => true
  | .genAnswerCall _ _ => true
  | .evalAnswerCall _ _ => true
  | _ => false

def Event.retrievedQuestion : Event → Option String
  | .retrieveCall q _ _ => some q
  | _ => none

def Event.saveTarget : Event → Option VectorDB
  | .saveCall _ db => some db
  | _ => none

def Event.queryTarget : Event → Option VectorDB
  | .retrieveCall _ db _ => some db
  | _ => none

/-- Calls made by the first loop: chunk each method's text, save the chunks. -/
def chunk_events (text : String) (db : VectorDB) : List ChunkingMethod → List Event
  | [] => []
  | m :: ms =>
    Event.chunkCall text m :: Event.saveCall (chunk_text text m) db :: chunk_events text db ms

/-- Calls made by the inner question loop: retrieve, answer, evaluate. -/
def question_events (db : VectorDB) : List String → List Event
  | [] => []
  | q :: qs =>
    Event.retrieveCall q db 3
      :: Event.genAnswerCall q (retrieve_relevant_chunks q db 3)
      :: Event.evalAnswerCall (generate_answer q (retrieve_relevant_chunks q db 3)) "correct_answer"
      :: question_events db qs

/-- Calls made by the second loop: every method replays the question loop
over the one cached question list. -/
def method_events (db : VectorDB) (questions : List String) : List ChunkingMethod → List Event
  | [] => []
  | _ :: ms => question_events db questions ++ method_events db questions ms

/-- The full call trace of run_benchmark on the notebook's stubs. -/
def run_benchmark_events (text : String) (methods : List ChunkingMethod) (db : VectorDB) :
    List Event :=
  chunk_events text db methods
    ++ Event.genQuestionsCall text 10 :: method_events db (generate_questions text 10) methods

/-! Service variants used to exercise run_benchmark on the behaviors the
claims talk about.  Each differs from stub_services in exactly the field
whose behavior the claim hypothesises. -/

/-- Stubs, except that answer generation echoes the question and grading
scores the three stub questions 0.9, 0.2 and 0.7: the per-question score
list of every strategy in such a run is [9/10, 1/5, 7/10]. -/
def scored_services : Services :=
  { stub_services with
    genAnswer := fun question context => .ok question
    evalAnswer := fun a c =>
      .ok (if a = "Question 1?" then 9/10 else if a = "Question 2?" then 1/5 else 7/10) }

/-- Stubs, except that question generation yields no questions. -/
def empty_questions_services : Services :=
  { stub_services with generateQuestions := fun text n => .ok [] }

/-- Stubs, except that the retrieval call raises RetrievalError. -/
def fail_retrieve_services : Services :=
  { stub_services with retrieve := fun question db k => .error .RetrievalError }

/-- Stubs, except that the grading call raises GradingError. -/
def fail_grading_services : Services :=
  { stub_services with evalAnswer := fun a c => .error .GradingError }

/-! Helper lemmas about the call trace. -/

theorem chunk_events_no_genQ (text : String) (db : VectorDB) :
    ∀ ms, (chunk_events text db ms).countP Event.isGenQuestionsCall = 0 := by
  intro ms
  induction ms with
  | nil => rfl
  | cons m rest ih =>
    simp [chunk_events, List.countP_cons, Event.isGenQuestionsCall, ih]

theorem question_events_no_genQ (db : VectorDB) :
    ∀ qs, (question_events db qs).countP Event.isGenQuestionsCall = 0 := by
  intro qs
  induction qs with
  | nil => rfl
  | cons q rest ih =>
    simp [question_events, List.countP_cons, Event.isGenQuestionsCall, ih]

theorem method_events_no_genQ (db : VectorDB) (questions : List String) :
    ∀ ms, (method_events db questions ms).countP Event.isGenQuestionsCall = 0 := by
  intro ms
  induction ms with
  | nil => rfl
  | cons m rest ih =>
    simp [method_events, List.countP_append, question_events_no_genQ, ih]

theorem chunk_events_no_evaluation (text : String) (db : VectorDB) :
    ∀ ms, (chunk_events text db ms).countP Event.isEvaluationCall = 0 := by
  intro ms
  induction ms with
  | nil => rfl
  | cons m rest ih =>
    simp [chunk_events, List.countP_cons, Event.isEvaluationCall, ih]

theorem takeWhile_chunk_prefix (text : String) (db : VectorDB) :
    ∀ (ms : List ChunkingMethod) (tail : List Event),
      (chunk_events text db ms ++ Event.genQuestionsCall text 10 :: tail).takeWhile
          (fun e => !e.isGenQuestionsCall)
        = chunk_events text db ms := by
  intro ms
  induction ms with
  | nil =>
    intro tail
    simp [chunk_events, List.takeWhile_cons, Event.isGenQuestionsCall]
  | cons m rest ih =>
    intro tail
    simp only [chunk_events, List.cons_append, List.takeWhile_cons,
      Event.isGenQuestionsCall, Bool.not_false, ih tail]
    simp only [Bool.not_true, Bool.not_false, if_pos trivial]
    exact congrArg (fun l => Event.chunkCall text m :: Event.saveCall (chunk_text text m) db :: l)
      (ih tail)

theorem events_takeWhile_chunk_phase (text : String) (db : VectorDB)
    (methods : List ChunkingMethod) :
    (run_benchmark_events text methods db).takeWhile (fun e => !e.isGenQuestionsCall)
      = chunk_events text db methods := by
  unfold run_benchmark_events
  exact takeWhile_chunk_prefix text db methods _

theorem chunk_events_no_retrieved (text : String) (db : VectorDB) :
    ∀ ms, (chunk_events text db ms).filterMap Event.retrievedQuestion = [] := by
  intro ms
  induction ms with
  | nil => rfl
  | cons m rest ih =>
    simp [chunk_events, List.filterMap_cons, Event.retrievedQuestion, ih]

theorem question_events_retrieved (db : VectorDB) :
    ∀ qs, (question_events db qs).filterMap Event.retrievedQuestion = qs := by
  intro qs
  induction qs with
  | nil => rfl
  | cons q rest ih =>
    simp [question_events, List.filterMap_cons, Event.retrievedQuestion, ih]

theorem method_events_retrieved (db : VectorDB) (questions : List String) :
    ∀ ms, (method_events db questions ms).filterMap Event.retrievedQuestion
      = (ms.map fun _ => questions).flatten := by
  intro ms
  induction ms with
  | nil => rfl
  | cons m rest ih =>
    simp [method_events, List.filterMap_append, question_events_retrieved, ih]

theorem chunk_events_saves (text : String) (db : VectorDB) :
    ∀ ms, (chunk_events text db ms).filterMap Event.saveTarget
      = List.replicate ms.length db := by
  intro ms
  induction ms with
  | nil => rfl
  | cons m rest ih =>
    simp [chunk_events, List.filterMap_cons, Event.saveTarget, ih, List.replicate_succ]

theorem question_events_saves (db : VectorDB) :
    ∀ qs, (question_events db qs).filterMap Event.saveTarget = [] := by
  intro qs
  induction qs with
  | nil => rfl
  | cons q rest ih =>
    simp [question_events, List.filterMap_cons, Event.saveTarget, ih]

theorem method_events_saves (db : VectorDB) (questions : List String) :
    ∀ ms, (method_events db questions ms).filterMap Event.saveTarget = [] := by
  intro ms
  induction ms with
  | nil => rfl
  | cons m rest ih =>
    simp [method_events, List.filterMap_append, question_events_saves, ih]

theorem question_events_queries (db : VectorDB) :
    ∀ qs, (question_events db qs).filterMap Event.queryTarget
      = List.replicate qs.length db := by
  intro qs
  induction qs with
  | nil => rfl
  | cons q rest ih =>
    simp [question_events, List.filterMap_cons, Event.queryTarget, ih, List.replicate_succ]

theorem chunk_events_queries (text : String) (db : VectorDB) :
    ∀ ms, (chunk_events text db ms).filterMap Event.queryTarget = [] := by
  intro ms
  induction ms with
  | nil => rfl
  | cons m rest ih =>
    simp [chunk_events, List.filterMap_cons, Event.queryTarget, ih]

theorem method_events_queries (db : VectorDB) (questions : List String) :
    ∀ ms, (method_events db questions ms).filterMap Event.queryTarget
      = List.replicate (ms.length * questions.length) db := by
  intro ms
  induction ms with
  | nil => simp [method_events]
  | cons m rest ih =>
    have hlen : (m :: rest).length * questions.length
        = questions.length + rest.length * questions.length := by
      simp [List.length_cons, Nat.succ_mul, Nat.add_comm]
    simp only [method_events, List.filterMap_append, question_events_queries, ih, hlen,
      List.replicate_add]

/-- In a scored_services run, question i of the three stub questions is
scored 0.9, 0.2 or 0.7 respectively. -/
theorem eval_question_scored (db : VectorDB) (q : String) :
    eval_question scored_services db q
      = .ok (if q = "Question 1?" then 9/10 else if q = "Question 2?" then 1/5 else 7/10) := rfl

theorem run_benchmark_scored (text : String) (methods : List ChunkingMethod) (db : VectorDB) :
    run_benchmark scored_services text methods db
      = .ok (methods.map fun m => (m.value, 3/5)) := by
  have hchunk : chunk_all scored_services text db methods = .ok () :=
    chunk_all_ok scored_services text db (fun m => ⟨chunk_text text m, rfl⟩)
      (fun cs => rfl) methods
  have hq := eval_questions_pointwise scored_services db
    (fun q => if q = "Question 1?" then (9:ℚ)/10 else if q = "Question 2?" then 1/5 else 7/10)
    (fun q => rfl) (generate_questions text 10)
  have hmap : (generate_questions text 10).map
      (fun q => if q = "Question 1?" then (9:ℚ)/10 else if q = "Question 2?" then 1/5 else 7/10)
      = [9/10, 1/5, 7/10] := by
    simp [generate_questions]
  rw [hmap] at hq
  have hagg : aggregate [(9:ℚ)/10, 1/5, 7/10] = .ok (3/5) := by
    simp [aggregate]
    norm_num
  have hgen : scored_services.generateQuestions text 10 = .ok (generate_questions text 10) := rfl
  simp only [run_benchmark, hchunk, hgen]
  exact run_methods_const scored_services db (generate_questions text 10) _ _ hq hagg methods

theorem eval_questions_scored (db : VectorDB) (text : String) :
    eval_questions scored_services db (generate_questions text 10) = .ok [9/10, 1/5, 7/10] := by
  have hq := eval_questions_pointwise scored_services db
    (fun q => if q = "Question 1?" then (9:ℚ)/10 else if q = "Question 2?" then 1/5 else 7/10)
    (fun q => rfl) (generate_questions text 10)
  have hmap : (generate_questions text 10).map
      (fun q => if q = "Question 1?" then (9:ℚ)/10 else if q = "Question 2?" then 1/5 else 7/10)
      = [9/10, 1/5, 7/10] := by
    simp [generate_questions]
  rw [hmap] at hq
  exact hq

/-! The claims. -/

/-- C1 counterexample: in a run whose per-question scores are
[0.9, 0.2, 0.7] for the first strategy (call it A), the benchmark reports
(0.9 + 0.2 + 0.7) / 3 = 0.6 for A, not the claimed thresholded accuracy
2/3; the second strategy necessarily receives the same 0.6, because the
evaluation loop never consults the strategy, so no run can give strategy B
a different score list at all. -/
theorem accuracy_formula_cex :
    eval_questions scored_services VectorDB.ASTRA (generate_questions "doc" 10)
      = .ok [9/10, 1/5, 7/10]
    ∧ run_benchmark scored_services "doc"
        [ChunkingMethod.UNSTRUCTURED, ChunkingMethod.AI21] VectorDB.ASTRA
      = .ok [("unstructured", 3/5), ("ai21", 3/5)]
    ∧ (3/5 : ℚ) ≠ 2/3 := by
  refine ⟨eval_questions_scored VectorDB.ASTRA "doc", ?_, by norm_num⟩
  simpa [ChunkingMethod.value] using
    run_benchmark_scored "doc" [ChunkingMethod.UNSTRUCTURED, ChunkingMethod.AI21] VectorDB.ASTRA

/-- C1 amended: when the gradings yield per-question scores
[0.9, 0.2, 0.7], run_benchmark reports the arithmetic mean 0.6 for every
strategy — the per-strategy value is sum(scores)/len(scores), not a
thresholded count, and it cannot differ between strategies. -/
theorem mean_reported_per_strategy (text : String) (methods : List ChunkingMethod)
    (db : VectorDB) :
    run_benchmark scored_services text methods db
      = .ok (methods.map fun m => (m.value, 3/5)) :=
  run_benchmark_scored text methods db

/-- C2 counterexample: a run whose question generator returns the empty
list aborts with ZeroDivisionError: the aggregation divides by the zero
attempted count instead of reporting an undefined accuracy. -/
theorem zero_attempted_division_cex :
    run_benchmark empty_questions_services "doc" [ChunkingMethod.CUSTOM] VectorDB.ASTRA
      = .error ErrKind.ZeroDivisionError := rfl

/-- C2 amended: with zero attempted scores the aggregation raises
ZeroDivisionError, aborting the run, rather than reporting accuracy as
undefined; on any non-empty score list whose entries lie in [0,1] it
succeeds and the reported value (the mean of the scores) lies in [0,1]. -/
theorem aggregate_unit_interval :
    aggregate ([] : List ℚ) = .error ErrKind.ZeroDivisionError
    ∧ ∀ method_scores : List ℚ, method_scores ≠ [] →
        (∀ s ∈ method_scores, 0 ≤ s ∧ s ≤ 1) →
        ∃ v, aggregate method_scores = .ok v ∧ 0 ≤ v ∧ v ≤ 1 := by
  constructor
  · rfl
  · intro scores hne hbound
    have hlen : scores.length ≠ 0 := by simpa using hne
    refine ⟨scores.sum / (scores.length : ℚ), ?_, ?_, ?_⟩
    · simp [aggregate, hlen]
    · exact div_nonneg (List.sum_nonneg fun s hs => (hbound s hs).1) (Nat.cast_nonneg _)
    · have hpos : (0:ℚ) < (scores.length : ℚ) := by
        exact_mod_cast Nat.pos_of_ne_zero hlen
      rw [div_le_one hpos]
      calc scores.sum ≤ scores.length • (1:ℚ) :=
            List.sum_le_card_nsmul _ _ fun s hs => (hbound s hs).2
        _ = (scores.length : ℚ) := by simp

/-- C2 witness: the amended theorem applied to the score list [0.85]. -/
theorem aggregate_unit_interval_witness :
    ∃ v, aggregate [(17:ℚ)/20] = .ok v ∧ 0 ≤ v ∧ v ≤ 1 :=
  aggregate_unit_interval.2 [17/20] (by simp)
    (by intro s hs; simp at hs; subst hs; constructor <;> norm_num)

/-- C3: in every run the trace holds exactly one question-generation call;
every call before it is chunking or saving (no evaluation call precedes
it); and the retrieval calls of the evaluation phase replay the one
generated question list, once per strategy, so every strategy is scored
against the identical question set. -/
theorem questions_generated_once_shared (text : String) (methods : List ChunkingMethod)
    (db : VectorDB) :
    (run_benchmark_events text methods db).countP Event.isGenQuestionsCall = 1
    ∧ ((run_benchmark_events text methods db).takeWhile
        (fun e => !e.isGenQuestionsCall)).countP Event.isEvaluationCall = 0
    ∧ (run_benchmark_events text methods db).filterMap Event.retrievedQuestion
      = (methods.map fun _ => generate_questions text 10).flatten := by
  refine ⟨?_, ?_, ?_⟩
  · unfold run_benchmark_events
    simp [List.countP_append, chunk_events_no_genQ, List.countP_cons,
      Event.isGenQuestionsCall, method_events_no_genQ]
  · rw [events_takeWhile_chunk_phase]
    exact chunk_events_no_evaluation text db methods
  · unfold run_benchmark_events
    simp [List.filterMap_append, chunk_events_no_retrieved, List.filterMap_cons,
      Event.retrievedQuestion, method_events_retrieved]

/-- C4 counterexample: in a two-strategy run over the ASTRA backend both
save calls target the very same db — there is no (document id,
strategy id) key, so the save targets are not pairwise distinct — and
retrieval returns placeholder strings that belong to no strategy's chunk
set. -/
theorem shared_index_cex :
    (run_benchmark_events "t" [ChunkingMethod.UNSTRUCTURED, ChunkingMethod.AI21]
        VectorDB.ASTRA).filterMap Event.saveTarget = [VectorDB.ASTRA, VectorDB.ASTRA]
    ∧ ¬ List.Pairwise Ne ((run_benchmark_events "t"
        [ChunkingMethod.UNSTRUCTURED, ChunkingMethod.AI21]
        VectorDB.ASTRA).filterMap Event.saveTarget)
    ∧ "relevant chunk 1" ∈ retrieve_relevant_chunks "Question 1?" VectorDB.ASTRA 3
    ∧ "relevant chunk 1" ∉ chunk_text "t" ChunkingMethod.UNSTRUCTURED := by
  refine ⟨by decide, by decide, by decide, by decide⟩

/-- C4 amended: every save call and every retrieval query of a run targets
the one vector db the run was given — a single shared index keyed by
nothing but the backend — and the fixed retrieval results never come from
any strategy's chunk set. -/
theorem single_db_for_all_strategies (text : String) (methods : List ChunkingMethod)
    (db : VectorDB) :
    (run_benchmark_events text methods db).filterMap Event.saveTarget
      = List.replicate methods.length db
    ∧ (run_benchmark_events text methods db).filterMap Event.queryTarget
      = List.replicate (methods.length * (generate_questions text 10).length) db
    ∧ ∀ (q text2 : String) (db2 : VectorDB) (k : Nat) (m : ChunkingMethod),
        (retrieve_relevant_chunks q db2 k).all
          (fun c => !((chunk_text text2 m).contains c)) = true := by
  refine ⟨?_, ?_, ?_⟩
  · unfold run_benchmark_events
    simp [List.filterMap_append, chunk_events_saves, List.filterMap_cons,
      Event.saveTarget, method_events_saves]
  · unfold run_benchmark_events
    simp [List.filterMap_append, chunk_events_queries, List.filterMap_cons,
      Event.queryTarget, method_events_queries]
  · intro q text2 db2 k m
    show (["relevant chunk 1", "relevant chunk 2"].all
      (fun c => !((["chunk1", "chunk2", "chunk3"] : List String).contains c))) = true
    decide

/-- C5 counterexample: asked for 10 questions, the generator silently
returns 3 — fewer than requested, with no InsufficientQuestions failure
(its type has no failure path at all). -/
theorem generate_questions_count_cex :
    (generate_questions "Long piece of fiction text..." 10).length = 3
    ∧ ¬ (10 ≤ (generate_questions "Long piece of fiction text..." 10).length) :=
  ⟨rfl, by decide⟩

/-- C5 amended: generate_questions ignores both its document and its count
argument and always returns the same three pairwise-distinct questions,
never failing and carrying no ground-truth answers; in particular, asked
for 10 questions it silently returns 3. -/
theorem generate_questions_fixed (text : String) (count : Nat) :
    generate_questions text count = ["Question 1?", "Question 2?", "Question 3?"]
    ∧ (generate_questions text count).Nodup
    ∧ (generate_questions text count).length = 3 :=
  ⟨rfl, by show (["Question 1?", "Question 2?", "Question 3?"] : List String).Nodup; decide, rfl⟩

/-- C6 counterexample: a grading failure on the first question aborts the
entire two-strategy run with GradingError — no EvaluationRecord with a
null score is produced, and the second strategy's pairs are never
evaluated. -/
theorem grading_failure_aborts_cex :
    run_benchmark fail_grading_services "doc"
        [ChunkingMethod.UNSTRUCTURED, ChunkingMethod.AI21] VectorDB.ASTRA
      = .error ErrKind.GradingError := rfl

/-- C6 amended: there is no local recovery around the evaluation steps:
when the retrieve/answer/grade pipeline of the first question of the first
strategy raises, the exception propagates out of run_benchmark and aborts
the whole run, so no null-score record is produced and the remaining
(strategy, question) pairs are not evaluated. -/
theorem step_failure_propagates (S : Services) (text : String) (db : VectorDB)
    (m : ChunkingMethod) (rest : List ChunkingMethod) (q : String) (qs : List String)
    (e : ErrKind)
    (hchunk : chunk_all S text db (m :: rest) = .ok ())
    (hq : S.generateQuestions text 10 = .ok (q :: qs))
    (hfail : eval_question S db q = .error e) :
    run_benchmark S text (m :: rest) db = .error e := by
  simp only [run_benchmark, hchunk, hq, run_methods, eval_questions, hfail]

/-- C6 witness: the propagation theorem applied to a run whose retrieval
raises RetrievalError. -/
theorem step_failure_propagates_witness :
    run_benchmark fail_retrieve_services "doc"
        [ChunkingMethod.UNSTRUCTURED, ChunkingMethod.AI21] VectorDB.ASTRA
      = .error ErrKind.RetrievalError :=
  step_failure_propagates fail_retrieve_services "doc" VectorDB.ASTRA
    ChunkingMethod.UNSTRUCTURED [ChunkingMethod.AI21] "Question 1?"
    ["Question 2?", "Question 3?"] ErrKind.RetrievalError rfl rfl rfl

/-- C7 counterexample: on the empty document the chunker returns the fixed
placeholder list, whose concatenation is non-empty and longer than the
document: the chunks introduce text not present in the document and do not
cover its content. -/
theorem chunk_coverage_cex :
    chunk_text "" ChunkingMethod.CUSTOM = ["chunk1", "chunk2", "chunk3"]
    ∧ String.join (chunk_text "" ChunkingMethod.CUSTOM) ≠ ""
    ∧ ("" : String).length < (String.join (chunk_text "" ChunkingMethod.CUSTOM)).length :=
  ⟨rfl, by decide, by decide⟩

/-- C7 amended: for every document and strategy the chunk sequence is the
fixed non-empty list [chunk1, chunk2, chunk3]; only the non-emptiness half
of the claim holds — the chunks bear no relation to the document's text. -/
theorem chunk_text_fixed_nonempty (text : String) (method : ChunkingMethod) :
    chunk_text text method = ["chunk1", "chunk2", "chunk3"]
    ∧ chunk_text text method ≠ [] :=
  ⟨rfl, by simp [chunk_text]⟩

/-- C8 counterexample: on the notebook's own example run every strategy is
mapped to the single value 0.85, the mean of its scores; the spec-modelled
accuracy for those scores at threshold 0.5 is 1, which the reported value
is not, and no second (total_cost) component exists in the result. -/
theorem output_lacks_cost_cex :
    run_benchmark stub_services "Long piece of fiction text..."
        [ChunkingMethod.UNSTRUCTURED, ChunkingMethod.AI21, ChunkingMethod.CUSTOM]
        VectorDB.ASTRA
      = .ok [("unstructured", 17/20), ("ai21", 17/20), ("custom", 17/20)]
    ∧ spec_accuracy [17/20, 17/20, 17/20] (1/2) = some 1
    ∧ ((17:ℚ)/20) ≠ 1 := by
  refine ⟨?_, ?_, by norm_num⟩
  · simpa [ChunkingMethod.value] using
      run_benchmark_stub "Long piece of fiction text..."
        [ChunkingMethod.UNSTRUCTURED, ChunkingMethod.AI21, ChunkingMethod.CUSTOM]
        VectorDB.ASTRA
  · simp [spec_accuracy, List.countP_cons]
    norm_num

/-- C8 amended: the final output maps each strategy id to exactly one
value, the arithmetic mean of its per-question scores (0.85 on the
notebook's stubs); no total_cost is metered, accumulated or reported
anywhere in the run. -/
theorem output_mean_only (text : String) (methods : List ChunkingMethod) (db : VectorDB) :
    run_benchmark stub_services text methods db
      = .ok (methods.map fun m => (m.value, 17/20)) :=
  run_benchmark_stub text methods db

/-- C10: chunk_text is completely independent of both its text and its
method argument — any two calls return the identical chunk list, so every
strategy in a run is evaluated over the same chunks. -/
theorem chunk_text_constant (t1 t2 : String) (m1 m2 : ChunkingMethod) :
    chunk_text t1 m1 = chunk_text t2 m2 := rfl
